import Mathlib

/-!
Shallow embedding of the metric-publishing cron job (src/index.js) of the
gcp-monitoring-alerting repository. The job queries a PostgreSQL/AlloyDB
database for counts of PENDING and PROCESSED orders and publishes them as
gauge metrics to Cloud Monitoring.

Modelling choices:
- JavaScript values that can appear in a result-row field are modelled by
  `JsValue` (undefined, null, string, integer number).
- `parseInt(x, 10) || 0` is modelled by `jsParseIntOr0`: ECMAScript parseInt
  first converts the argument to a string, skips leading whitespace, reads an
  optional sign and then the longest prefix of decimal digits; no digits means
  NaN, and `NaN || 0` (as well as `0 || 0`) evaluates to 0.
- The database pool is modelled as a function from query text to a result or
  a `DbError`; `getOrderCounts` additionally returns the list of queries it
  issued, so that "exactly one query per invocation" is a provable statement.
- The monitoring client is modelled as a function from a createTimeSeries
  request to success or a `PublishError`.
- An async JavaScript function that can reject is modelled as returning
  `Except`; a function whose body is wholly wrapped in try/catch without a
  rethrow (publishMetric, main) therefore always returns `Except.ok`.
- `Date.now() / 1000` is a floating-point division of a millisecond count; it
  is modelled exactly as a rational, `nowSeconds`.
-/

namespace OrdersMonitor

/-- A JavaScript value as it can appear in a field of a database result row
or be passed to parseInt. -/
inductive JsValue where
  | undefined
  | null
  | str (s : String)
  | num (n : Int)
deriving DecidableEq

/-- ECMAScript ToString on the values of `JsValue`. -/
def jsToString : JsValue → String
  | .undefined => "undefined"
  | .null => "null"
  | .str s => s
  | .num n => toString n

/-- Characters skipped by parseInt before reading the number. -/
def isJsSpace (c : Char) : Bool :=
  c = ' ' || c = '\t' || c = '\n' || c = '\r' || c = '\x0b' || c = '\x0c'

/-- Reading an optional leading sign, as parseInt does. -/
def stripSign (cs : List Char) : Int × List Char :=
  match cs with
  | [] => (1, [])
  | c :: rest =>
    if c = '-' then (-1, rest)
    else if c = '+' then (1, rest)
    else (1, c :: rest)

/-- Numeric value of a list of decimal digits. -/
def digitsToInt (ds : List Char) : Int :=
  ds.foldl (fun a c => a * 10 + ((c.toNat - 48 : Nat) : Int)) 0

/-- ECMAScript parseInt with radix 10: skip whitespace, read an optional
sign, then the longest prefix of decimal digits; `none` models NaN. -/
def jsParseInt10 (s : String) : Option Int :=
  let cs := s.toList.dropWhile isJsSpace
  let sc := stripSign cs
  let ds := sc.2.takeWhile Char.isDigit
  if ds.isEmpty then none
  else some (sc.1 * digitsToInt ds)

/-- Mirrors `parseInt(v, 10) || 0` (src/index.js lines 44-45): a NaN result,
like a 0 result, is replaced by 0 by the logical-or. -/
def jsParseIntOr0 (v : JsValue) : Int :=
  (jsParseInt10 (jsToString v)).getD 0

/-- Mirrors `v || d` applied to an environment-variable lookup: an absent
variable (undefined) and an empty string are both falsy in JavaScript, so
both select the default. -/
def jsOrDefault : Option String → String → String
  | none, d => d
  | some s, d => if s = "" then d else s

/-- The connection configuration object (src/index.js lines 14-20). The port
is `parseInt(process.env.DB_PORT || '5432', 10)`; `none` models NaN. -/
structure DbConfig where
  user : Option String
  password : Option String
  host : String
  database : Option String
  port : Option Int
deriving DecidableEq

/-- Mirrors the construction of `dbConfig` from the process environment
(src/index.js lines 14-20). -/
def dbConfig (env : String → Option String) : DbConfig :=
  { user := env "DB_USER"
    password := env "DB_PASS"
    host := jsOrDefault (env "DB_HOST") "127.0.0.1"
    database := env "DB_NAME"
    port := jsParseInt10 (jsOrDefault (env "DB_PORT") "5432") }

/-- An error raised by the pg driver (connection or query failure). -/
inductive DbError where
  | mk (msg : String)
deriving DecidableEq

/-- An error raised by the monitoring client on createTimeSeries. -/
inductive PublishError where
  | mk (msg : String)
deriving DecidableEq

/-- An error as it propagates out of `getOrderCounts`: either the rethrown
database error, or the TypeError raised by reading a property of
`res.rows[0]` when the row list is empty. -/
inductive JsError where
  | db (e : DbError)
  | typeError (msg : String)
deriving DecidableEq

/-- A row of the aggregate query: the SELECT list has exactly the two
columns backlog_count and processed_count. -/
structure Row where
  backlog_count : JsValue
  processed_count : JsValue
deriving DecidableEq

/-- The pg query result, of which only `rows` is read. -/
structure QueryResult where
  rows : List Row
deriving DecidableEq

/-- The connection pool, modelled as the response it gives to each query
text. -/
abbrev DbConn := String → Except DbError QueryResult

/-- The pair returned by `getOrderCounts` (src/index.js line 48). -/
structure OrderCounts where
  backlogCount : Int
  processedCount : Int
deriving DecidableEq

/-- The SQL text sent by `getOrderCounts` (src/index.js lines 36-41). -/
def orderCountsQuery : String :=
  "\n    SELECT\n      COUNT(*) FILTER (WHERE status = 'PENDING') AS backlog_count,\n      COUNT(*) FILTER (WHERE status = 'PROCESSED') AS processed_count\n    FROM orders;\n  "

/-- The message of the TypeError raised by `res.rows[0].backlog_count` when
`rows` is empty: `res.rows[0]` is undefined and the property read throws. -/
def undefinedRowMsg : String :=
  "Cannot read properties of undefined (reading 'backlog_count')"

/-- Mirrors `getOrderCounts` (src/index.js lines 34-53). The first component
is the list of queries issued through the pool, in order; the second is the
result of the async function. The catch block logs and rethrows, so both a
query failure and the empty-row TypeError propagate to the caller. -/
def getOrderCounts (db : DbConn) : List String × Except JsError OrderCounts :=
  ([orderCountsQuery],
    match db orderCountsQuery with
    | .error e => .error (.db e)
    | .ok res =>
      match res.rows with
      | [] => .error (.typeError undefinedRowMsg)
      | row :: _ =>
        .ok { backlogCount := jsParseIntOr0 row.backlog_count
              processedCount := jsParseIntOr0 row.processed_count })

/-- The backlog metric type (src/index.js line 23). -/
def customMetricType : String := "custom.googleapis.com/orders/backlog_count"

/-- The processed metric type (src/index.js line 24). -/
def processedMetricType : String := "custom.googleapis.com/orders/processed_count"

/-- A time interval of a point. Both bounds are optional in the request
schema; the code sets only `endTime` (src/index.js lines 79-84). Times are
in seconds, possibly fractional. -/
structure TimeInterval where
  startTime : Option ℚ
  endTime : Option ℚ
deriving DecidableEq

/-- A data point of a time series (src/index.js lines 78-88). -/
structure Point where
  interval : TimeInterval
  int64Value : Int
deriving DecidableEq

/-- The metric descriptor of a time series (src/index.js lines 68-70). -/
structure Metric where
  type : String
deriving DecidableEq

/-- The monitored-resource descriptor (src/index.js lines 71-76). -/
structure Resource where
  type : String
  labels : List (String × String)
deriving DecidableEq

/-- One time series of a createTimeSeries request (src/index.js
lines 67-92). -/
structure TimeSeries where
  metric : Metric
  resource : Resource
  points : List Point
  metricKind : String
  valueType : String
deriving DecidableEq

/-- The createTimeSeries request (src/index.js lines 95-98). -/
structure CreateTimeSeriesRequest where
  name : String
  timeSeries : List TimeSeries
deriving DecidableEq

/-- Mirrors `metricServiceClient.projectPath(projectId)`. -/
def projectPath (projectId : String) : String := "projects/" ++ projectId

/-- Mirrors `Date.now() / 1000` (src/index.js line 82): floating-point
division of the current millisecond count by 1000, modelled exactly. -/
def nowSeconds (nowMs : Nat) : ℚ := (nowMs : ℚ) / 1000

/-- Mirrors the `timeSeries` array literal (src/index.js lines 66-93): one
series with one point, only the end time set, GAUGE kind, INT64 value type,
global resource labelled with the project id. -/
def mkTimeSeries (metricValue : Int) (metricType : String) (projectId : String)
    (nowMs : Nat) : List TimeSeries :=
  [{ metric := { type := metricType }
     resource := { type := "global", labels := [("project_id", projectId)] }
     points := [{ interval := { startTime := none, endTime := some (nowSeconds nowMs) }
                  int64Value := metricValue }]
     metricKind := "GAUGE"
     valueType := "INT64" }]

/-- Mirrors the `request` object (src/index.js lines 95-98). -/
def mkRequest (metricValue : Int) (metricType : String) (projectId : String)
    (nowMs : Nat) : CreateTimeSeriesRequest :=
  { name := projectPath projectId
    timeSeries := mkTimeSeries metricValue metricType projectId nowMs }

/-- The monitoring client, modelled as the outcome it gives to each
createTimeSeries request. -/
abbrev MetricClient := CreateTimeSeriesRequest → Except PublishError Unit

/-- The record of one `publishMetric` invocation: the arguments it received,
the single createTimeSeries request it sent, and whether its catch block
logged an error. -/
structure PublishCall where
  metricValue : Int
  metricType : String
  request : CreateTimeSeriesRequest
  errorLogged : Bool
deriving DecidableEq

/-- Whether an `Except` is in the error case. -/
def isErrorResult {ε α : Type} : Except ε α → Bool
  | .error _ => true
  | .ok _ => false

/-- Mirrors `publishMetric` (src/index.js lines 63-106). The createTimeSeries
call is wrapped in try/catch with no rethrow, so the async function resolves
in both cases; the catch branch only logs. -/
def publishMetric (client : MetricClient) (metricValue : Int) (metricType : String)
    (projectId : String) (nowMs : Nat) : Except PublishError PublishCall :=
  match client (mkRequest metricValue metricType projectId nowMs) with
  | .ok _ =>
    .ok { metricValue := metricValue, metricType := metricType
          request := mkRequest metricValue metricType projectId nowMs
          errorLogged := false }
  | .error _ =>
    .ok { metricValue := metricValue, metricType := metricType
          request := mkRequest metricValue metricType projectId nowMs
          errorLogged := true }

/-- The observable outcome of one cycle of `main`: the publishMetric calls
made, in call order, and whether the catch block of `main` logged an
error. -/
structure CycleResult where
  publishCalls : List PublishCall
  errorLogged : Bool
deriving DecidableEq

/-- Mirrors `main` (src/index.js lines 108-121). A failed fetch jumps to the
catch block before any publish call; otherwise both publishMetric calls run
under Promise.all, each with its own Date.now reading (`t1`, `t2`). The body
is wholly wrapped in try/catch without a rethrow, so `main` always resolves.
The two error branches of the inner match are unreachable because
`publishMetric` never rejects. -/
def main (db : DbConn) (client : MetricClient) (projectId : String)
    (t1 t2 : Nat) : Except JsError CycleResult :=
  match (getOrderCounts db).2 with
  | .error _ => .ok { publishCalls := [], errorLogged := true }
  | .ok counts =>
    match publishMetric client counts.backlogCount customMetricType projectId t1,
          publishMetric client counts.processedCount processedMetricType projectId t2 with
    | .ok c1, .ok c2 => .ok { publishCalls := [c1, c2], errorLogged := false }
    | .error _, _ => .ok { publishCalls := [], errorLogged := true }
    | _, .error _ => .ok { publishCalls := [], errorLogged := true }

/-- The end times of all points of all series of a request, in order. -/
def pointEndTimes (r : CreateTimeSeriesRequest) : List (Option ℚ) :=
  r.timeSeries.flatMap fun ts => ts.points.map fun pt => pt.interval.endTime

/-- The call record produced by a `publishMetric` invocation: its errorLogged
flag reproduces the outcome of the createTimeSeries call. -/
def pubRecord (client : MetricClient) (v : Int) (mt proj : String) (now : Nat) :
    PublishCall :=
  { metricValue := v, metricType := mt
    request := mkRequest v mt proj now
    errorLogged := isErrorResult (client (mkRequest v mt proj now)) }

/-- Helper: `publishMetric` always resolves, to `pubRecord`. -/
theorem publishMetric_eq (client : MetricClient) (v : Int) (mt proj : String)
    (now : Nat) :
    publishMetric client v mt proj now = Except.ok (pubRecord client v mt proj now) := by
  unfold publishMetric pubRecord
  cases hc : client (mkRequest v mt proj now) <;> simp [isErrorResult, hc]

/-- Helper: when the fetch succeeds, one cycle of `main` makes exactly the
two publish calls, backlog first, and logs no cycle error. -/
theorem main_eq_of_ok (db : DbConn) (client : MetricClient) (proj : String)
    (t1 t2 : Nat) (c : OrderCounts)
    (h : (getOrderCounts db).2 = .ok c) :
    main db client proj t1 t2 =
      .ok { publishCalls :=
              [pubRecord client c.backlogCount customMetricType proj t1,
               pubRecord client c.processedCount processedMetricType proj t2]
            errorLogged := false } := by
  unfold main
  rw [h]
  simp only [publishMetric_eq]

/-- C1: in a cycle whose fetch succeeds with backlogCount b and
processedCount p (b, p nonnegative), main makes exactly two publish calls:
the first with value b and the backlog metric type, the second with value p
and the processed metric type, and the two metric types differ. -/
theorem C1_main_publishes_both_counts (db : DbConn) (client : MetricClient)
    (proj : String) (t1 t2 : Nat) (b p : Int) (_hb : 0 ≤ b) (_hp : 0 ≤ p)
    (h : (getOrderCounts db).2 = .ok { backlogCount := b, processedCount := p }) :
    ∃ c1 c2, main db client proj t1 t2 =
        .ok { publishCalls := [c1, c2], errorLogged := false } ∧
      c1.metricValue = b ∧ c1.metricType = customMetricType ∧
      c2.metricValue = p ∧ c2.metricType = processedMetricType ∧
      customMetricType ≠ processedMetricType := by
  exact ⟨_, _, main_eq_of_ok db client proj t1 t2 _ h, rfl, rfl, rfl, rfl, by decide⟩

/-- Witness for C1 at a concrete database returning the row
(backlog_count = "2", processed_count = "1"). -/
theorem C1_main_publishes_both_counts_witness :
    ∃ c1 c2,
      main (fun _ => .ok { rows := [{ backlog_count := .str "2", processed_count := .str "1" }] })
          (fun _ => .ok ()) "demo-project" 1000 1001 =
        .ok { publishCalls := [c1, c2], errorLogged := false } ∧
      c1.metricValue = 2 ∧ c1.metricType = customMetricType ∧
      c2.metricValue = 1 ∧ c2.metricType = processedMetricType ∧
      customMetricType ≠ processedMetricType :=
  C1_main_publishes_both_counts
    (fun _ => .ok { rows := [{ backlog_count := .str "2", processed_count := .str "1" }] })
    (fun _ => .ok ()) "demo-project" 1000 1001 2 1 (by decide) (by decide) rfl

/-- C2: when getOrderCounts fails (with any error), main makes zero publish
calls, logs the error in its catch block, and still resolves. -/
theorem C2_fetch_failure_skips_publish (db : DbConn) (client : MetricClient)
    (proj : String) (t1 t2 : Nat) (err : JsError)
    (h : (getOrderCounts db).2 = .error err) :
    main db client proj t1 t2 = .ok { publishCalls := [], errorLogged := true } := by
  unfold main
  rw [h]

/-- Witness for C2 at a concrete database whose query rejects. -/
theorem C2_fetch_failure_skips_publish_witness :
    main (fun _ => .error (.mk "connection refused")) (fun _ => .ok ())
        "demo-project" 1000 1001 =
      .ok { publishCalls := [], errorLogged := true } :=
  C2_fetch_failure_skips_publish (fun _ => .error (.mk "connection refused"))
    (fun _ => .ok ()) "demo-project" 1000 1001
    (.db (.mk "connection refused")) rfl

/-- C10: when the query resolves with zero rows, getOrderCounts propagates
the TypeError raised by reading a field of `res.rows[0]` instead of
returning zero counts. -/
theorem C10_empty_rows_propagate_error (db : DbConn)
    (h : db orderCountsQuery = .ok { rows := [] }) :
    (getOrderCounts db).2 = .error (.typeError undefinedRowMsg) := by
  unfold getOrderCounts
  rw [h]

/-- Witness for C10 at a concrete database returning an empty row set. -/
theorem C10_empty_rows_propagate_error_witness :
    (getOrderCounts (fun _ => .ok { rows := [] })).2 =
      .error (.typeError undefinedRowMsg) :=
  C10_empty_rows_propagate_error (fun _ => .ok { rows := [] }) rfl

/-- C3: publishMetric never rejects, its logged-error flag is exactly the
outcome of the createTimeSeries call, and in a cycle whose fetch succeeds
both publish calls are made and the cycle resolves without a cycle error,
whatever subset of the createTimeSeries calls fails. -/
theorem C3_publish_failures_isolated (client : MetricClient) (v : Int)
    (mt proj : String) (now : Nat) (db : DbConn) (t1 t2 : Nat) (c : OrderCounts)
    (h : (getOrderCounts db).2 = .ok c) :
    (∃ pc, publishMetric client v mt proj now = .ok pc ∧
       pc.errorLogged = isErrorResult (client pc.request)) ∧
    (∃ c1 c2, main db client proj t1 t2 =
        .ok { publishCalls := [c1, c2], errorLogged := false } ∧
      c1.errorLogged = isErrorResult (client c1.request) ∧
      c2.errorLogged = isErrorResult (client c2.request)) :=
  ⟨⟨pubRecord client v mt proj now, publishMetric_eq client v mt proj now, rfl⟩,
   ⟨pubRecord client c.backlogCount customMetricType proj t1,
    pubRecord client c.processedCount processedMetricType proj t2,
    main_eq_of_ok db client proj t1 t2 c h, rfl, rfl⟩⟩

/-- A concrete client that fails exactly on requests carrying the backlog
metric type, used to witness C3. -/
def failBacklogClient : MetricClient := fun r =>
  if r.timeSeries.map (fun ts => ts.metric.type) = [customMetricType]
  then Except.error (PublishError.mk "network")
  else Except.ok ()

/-- A concrete database answering every query with one row whose counts are
the strings "2" and "1", used to witness C3. -/
def twoOneDb : DbConn := fun _ =>
  Except.ok { rows := [{ backlog_count := .str "2", processed_count := .str "1" }] }

/-- Witness for C3 with a client that fails exactly on the backlog metric
request: both calls still appear in the cycle and the cycle resolves. -/
theorem C3_publish_failures_isolated_witness :
    (∃ pc, publishMetric failBacklogClient 2 customMetricType "demo-project" 1000 = .ok pc ∧
       pc.errorLogged = isErrorResult (failBacklogClient pc.request)) ∧
    (∃ c1 c2, main twoOneDb failBacklogClient "demo-project" 1000 1001 =
        .ok { publishCalls := [c1, c2], errorLogged := false } ∧
      c1.errorLogged = isErrorResult (failBacklogClient c1.request) ∧
      c2.errorLogged = isErrorResult (failBacklogClient c2.request)) :=
  C3_publish_failures_isolated failBacklogClient 2 customMetricType "demo-project" 1000
    twoOneDb 1000 1001 { backlogCount := 2, processedCount := 1 } rfl

/-- Helper: takeWhile isDigit of a digit-free list is empty. -/
theorem takeWhile_isDigit_eq_nil (l : List Char)
    (h : ∀ c ∈ l, c.isDigit = false) :
    l.takeWhile Char.isDigit = [] := by
  cases l with
  | nil => rfl
  | cons a t => simp [List.takeWhile_cons, h a (by simp)]

/-- Helper: the suffix kept by stripSign is contained in its argument. -/
theorem stripSign_mem (cs : List Char) : ∀ c ∈ (stripSign cs).2, c ∈ cs := by
  intro c hc
  cases cs with
  | nil => simp [stripSign] at hc
  | cons a t =>
    unfold stripSign at hc
    by_cases h1 : a = '-'
    · simp only [h1, if_pos rfl] at hc
      exact List.mem_cons_of_mem a hc
    · by_cases h2 : a = '+'
      · simp only [h1, h2, if_neg, if_pos, reduceCtorEq, ite_false, ite_true] at hc
        exact List.mem_cons_of_mem a hc
      · simpa [h1, h2] using hc

/-- Helper: parseInt is NaN on a string containing no decimal digit. -/
theorem jsParseInt10_eq_none (s : String)
    (h : ∀ c ∈ s.toList, c.isDigit = false) :
    jsParseInt10 s = none := by
  have hsub : ∀ c ∈ (stripSign (s.toList.dropWhile isJsSpace)).2, c.isDigit = false := by
    intro c hc
    exact h c ((List.dropWhile_sublist _).subset (stripSign_mem _ c hc))
  have hnil : (stripSign (s.toList.dropWhile isJsSpace)).2.takeWhile Char.isDigit = [] :=
    takeWhile_isDigit_eq_nil _ hsub
  simp only [jsParseInt10]
  rw [hnil]
  rfl

/-- A result-row field that is missing (undefined), null, or a string with
no decimal digit in it (in particular any clearly non-numeric string). -/
def NonNumericField (v : JsValue) : Prop :=
  v = .undefined ∨ v = .null ∨ ∃ s, v = .str s ∧ ∀ c ∈ s.toList, c.isDigit = false

/-- Helper: `parseInt(v, 10) || 0` coerces a missing, null or digit-free
field to 0. -/
theorem jsParseIntOr0_eq_zero (v : JsValue) (h : NonNumericField v) :
    jsParseIntOr0 v = 0 := by
  rcases h with h | h | ⟨s, rfl, hs⟩
  · subst h; rfl
  · subst h; rfl
  · unfold jsParseIntOr0
    rw [jsToString, jsParseInt10_eq_none s hs]
    rfl

/-- C4: when the first result row exists, getOrderCounts always returns
successfully, and any aggregate field that is missing, null or non-numeric
is coerced to a zero count. -/
theorem C4_nonnumeric_coerced_to_zero (db : DbConn) (row : Row) (rest : List Row)
    (h : db orderCountsQuery = .ok { rows := row :: rest }) :
    ∃ c : OrderCounts, (getOrderCounts db).2 = .ok c ∧
      (NonNumericField row.backlog_count → c.backlogCount = 0) ∧
      (NonNumericField row.processed_count → c.processedCount = 0) := by
  have hg : (getOrderCounts db).2 =
      .ok { backlogCount := jsParseIntOr0 row.backlog_count
            processedCount := jsParseIntOr0 row.processed_count } := by
    unfold getOrderCounts
    rw [h]
  exact ⟨_, hg, fun hb => jsParseIntOr0_eq_zero _ hb, fun hp => jsParseIntOr0_eq_zero _ hp⟩

/-- Witness for C4 at a row whose backlog field is null and whose processed
field is the non-numeric string "abc": both counts come back 0. -/
theorem C4_nonnumeric_coerced_to_zero_witness :
    ∃ c : OrderCounts,
      (getOrderCounts
        (fun _ => .ok { rows := [{ backlog_count := .null, processed_count := .str "abc" }] })).2 =
        .ok c ∧
      (NonNumericField JsValue.null → c.backlogCount = 0) ∧
      (NonNumericField (.str "abc") → c.processedCount = 0) :=
  C4_nonnumeric_coerced_to_zero
    (fun _ => .ok { rows := [{ backlog_count := .null, processed_count := .str "abc" }] })
    { backlog_count := .null, processed_count := .str "abc" } [] rfl

/-- C5 counterexample: the point built by publishMetric exists (outer
`some`) but its interval carries no start time at all (inner `none`), so the
interval does not carry the current wall-clock time as its start time. -/
theorem C5_counterexample :
    ((publishMetric (fun _ => Except.ok ()) 7 customMetricType "demo-project" 12345).toOption.bind
      fun pc => pc.request.timeSeries.head?.bind
        fun ts => ts.points.head?.map
          fun pt => pt.interval.startTime) = some none := rfl

/-- C5 amended: every point built by publishMetric belongs to a series of
metric kind GAUGE, carries the current wall-clock time as its interval end
time, and omits the interval start time (which the monitoring backend treats
as equal to the end time for gauge points). -/
theorem C5_gauge_interval (client : MetricClient) (v : Int) (mt proj : String)
    (now : Nat) (pc : PublishCall)
    (h : publishMetric client v mt proj now = .ok pc) :
    ∀ ts ∈ pc.request.timeSeries, ts.metricKind = "GAUGE" ∧
      ∀ pt ∈ ts.points,
        pt.interval.startTime = none ∧ pt.interval.endTime = some (nowSeconds now) := by
  rw [publishMetric_eq] at h
  cases h
  intro ts hts
  simp only [pubRecord, mkRequest, mkTimeSeries, List.mem_singleton] at hts
  subst hts
  exact ⟨rfl, by intro pt hpt; simp only [List.mem_singleton] at hpt; subst hpt; exact ⟨rfl, rfl⟩⟩

/-- Witness for C5 (amended) at concrete inputs: the one series built for
value 7 at time 12345 ms is a GAUGE series and its one point has no start
time and end time 12.345 s. -/
theorem C5_gauge_interval_witness :
    (pubRecord (fun _ => Except.ok ()) 7 customMetricType "demo-project" 12345).request.timeSeries.all
      (fun ts => decide (ts.metricKind = "GAUGE") &&
        ts.points.all (fun pt =>
          decide (pt.interval.startTime = none) &&
          decide (pt.interval.endTime = some (nowSeconds 12345)))) = true := by
  have h := C5_gauge_interval (fun _ => Except.ok ()) 7 customMetricType "demo-project" 12345
    (pubRecord (fun _ => Except.ok ()) 7 customMetricType "demo-project" 12345) rfl
  rw [List.all_eq_true]
  intro ts hts
  obtain ⟨h1, h2⟩ := h ts hts
  rw [Bool.and_eq_true, List.all_eq_true]
  refine ⟨by simp [h1], ?_⟩
  intro pt hpt
  obtain ⟨h3, h4⟩ := h2 pt hpt
  simp [h3, h4]

/-- C6: each getOrderCounts invocation issues exactly the one aggregate
query, and whenever it succeeds both returned counts are derived from the
same first row of that single query result. -/
theorem C6_single_query_single_row (db : DbConn) (c : OrderCounts)
    (h : (getOrderCounts db).2 = .ok c) :
    (getOrderCounts db).1 = [orderCountsQuery] ∧
    ∃ row rest, db orderCountsQuery = .ok { rows := row :: rest } ∧
      c.backlogCount = jsParseIntOr0 row.backlog_count ∧
      c.processedCount = jsParseIntOr0 row.processed_count := by
  refine ⟨rfl, ?_⟩
  unfold getOrderCounts at h
  cases hq : db orderCountsQuery with
  | error e =>
    rw [hq] at h
    exact Except.noConfusion (show Except.error (JsError.db e) = Except.ok c from h)
  | ok res =>
    rw [hq] at h
    obtain ⟨rows⟩ := res
    cases rows with
    | nil =>
      exact Except.noConfusion
        (show Except.error (JsError.typeError undefinedRowMsg) = Except.ok c from h)
    | cons row rest =>
      have hv : Except.ok
          { backlogCount := jsParseIntOr0 row.backlog_count
            processedCount := jsParseIntOr0 row.processed_count } = Except.ok c := h
      cases hv
      exact ⟨row, rest, rfl, rfl, rfl⟩

/-- Witness for C6 at a concrete database returning the row
(backlog_count = "3", processed_count = "4"). -/
theorem C6_single_query_single_row_witness :
    (getOrderCounts
      (fun _ => .ok { rows := [{ backlog_count := .str "3", processed_count := .str "4" }] })).1 =
      [orderCountsQuery] ∧
    ∃ row rest,
      (fun (_ : String) =>
        (Except.ok { rows := [{ backlog_count := .str "3", processed_count := .str "4" }] } :
          Except DbError QueryResult)) orderCountsQuery = .ok { rows := row :: rest } ∧
      (3 : Int) = jsParseIntOr0 row.backlog_count ∧
      (4 : Int) = jsParseIntOr0 row.processed_count :=
  C6_single_query_single_row
    (fun _ => .ok { rows := [{ backlog_count := .str "3", processed_count := .str "4" }] })
    { backlogCount := 3, processedCount := 4 } rfl

/-- C7: every publishMetric invocation sends one request to the project path,
containing exactly one time series with exactly one point, of metric kind
GAUGE and value type INT64, on the global resource labelled with the project
id, carrying the metric type and value of the invocation. -/
theorem C7_single_series_single_point (client : MetricClient) (v : Int)
    (mt proj : String) (now : Nat) (pc : PublishCall)
    (h : publishMetric client v mt proj now = .ok pc) :
    pc.metricValue = v ∧ pc.metricType = mt ∧
    pc.request.name = projectPath proj ∧
    ∃ ts pt, pc.request.timeSeries = [ts] ∧ ts.points = [pt] ∧
      ts.metricKind = "GAUGE" ∧ ts.valueType = "INT64" ∧
      ts.metric.type = mt ∧ ts.resource.type = "global" ∧
      ts.resource.labels = [("project_id", proj)] ∧
      pt.int64Value = v := by
  rw [publishMetric_eq] at h
  cases h
  exact ⟨rfl, rfl, rfl, _, _, rfl, rfl, rfl, rfl, rfl, rfl, rfl, rfl⟩

/-- Witness for C7 at concrete inputs. -/
theorem C7_single_series_single_point_witness :
    (pubRecord (fun _ => Except.ok ()) 5 processedMetricType "demo-project" 2000).metricValue = 5 ∧
    (pubRecord (fun _ => Except.ok ()) 5 processedMetricType "demo-project" 2000).metricType = processedMetricType ∧
    (pubRecord (fun _ => Except.ok ()) 5 processedMetricType "demo-project" 2000).request.name = projectPath "demo-project" ∧
    ∃ ts pt,
      (pubRecord (fun _ => Except.ok ()) 5 processedMetricType "demo-project" 2000).request.timeSeries = [ts] ∧
      ts.points = [pt] ∧
      ts.metricKind = "GAUGE" ∧ ts.valueType = "INT64" ∧
      ts.metric.type = processedMetricType ∧ ts.resource.type = "global" ∧
      ts.resource.labels = [("project_id", "demo-project")] ∧
      pt.int64Value = 5 :=
  C7_single_series_single_point (fun _ => Except.ok ()) 5 processedMetricType
    "demo-project" 2000
    (pubRecord (fun _ => Except.ok ()) 5 processedMetricType "demo-project" 2000) rfl

/-- C8 counterexample: with DB_HOST set to the empty string, the supplied
value is not used; the JavaScript logical-or treats the empty string as
falsy and falls back to the default host. -/
theorem C8_counterexample :
    ((fun k => if k = "DB_HOST" then some "" else none) : String → Option String) "DB_HOST" = some "" ∧
    (dbConfig (fun k => if k = "DB_HOST" then some "" else none)).host = "127.0.0.1" ∧
    (dbConfig (fun k => if k = "DB_HOST" then some "" else none)).host ≠ "" :=
  ⟨rfl, rfl, by decide⟩

/-- C8 amended: an unset or empty DB_HOST yields host 127.0.0.1 and an unset
or empty DB_PORT yields port 5432; a nonempty DB_HOST is used verbatim and a
nonempty DB_PORT is used after parseInt (NaN, modelled none, if it does not
parse). -/
theorem C8_env_defaults (env : String → Option String) :
    ((env "DB_HOST" = none ∨ env "DB_HOST" = some "") →
      (dbConfig env).host = "127.0.0.1") ∧
    (∀ h, env "DB_HOST" = some h → h ≠ "" → (dbConfig env).host = h) ∧
    ((env "DB_PORT" = none ∨ env "DB_PORT" = some "") →
      (dbConfig env).port = some 5432) ∧
    (∀ p, env "DB_PORT" = some p → p ≠ "" → (dbConfig env).port = jsParseInt10 p) := by
  refine ⟨?_, ?_, ?_, ?_⟩
  · rintro (h | h) <;> simp [dbConfig, jsOrDefault, h]
  · intro hv h hne
    simp [dbConfig, jsOrDefault, h, hne]
  · rintro (h | h) <;> simp [dbConfig, jsOrDefault, h] <;> rfl
  · intro p h hne
    simp [dbConfig, jsOrDefault, h, hne]

/-- Witness for C8 (amended) at an environment supplying a nonempty host and
port. -/
theorem C8_env_defaults_witness :
    (dbConfig (fun k => if k = "DB_HOST" then some "10.0.0.5"
                        else if k = "DB_PORT" then some "5433" else none)).host = "10.0.0.5" ∧
    (dbConfig (fun k => if k = "DB_HOST" then some "10.0.0.5"
                        else if k = "DB_PORT" then some "5433" else none)).port = jsParseInt10 "5433" :=
  ⟨(C8_env_defaults (fun k => if k = "DB_HOST" then some "10.0.0.5"
      else if k = "DB_PORT" then some "5433" else none)).2.1 "10.0.0.5" rfl (by decide),
   (C8_env_defaults (fun k => if k = "DB_HOST" then some "10.0.0.5"
      else if k = "DB_PORT" then some "5433" else none)).2.2.2 "5433" rfl (by decide)⟩

/-- C9: two cycles against the same data source (hence identical counts),
the second strictly after the first, publish points with identical values
and strictly increasing end times; each cycle submits each metric in exactly
one request carrying exactly one point with the cycle's own timestamp. -/
theorem C9_same_values_increasing_times (db : DbConn) (client : MetricClient)
    (proj : String) (a1 a2 b1 b2 : Nat) (h1 : a1 < b1) (h2 : a2 < b2)
    (c : OrderCounts) (h : (getOrderCounts db).2 = .ok c) :
    ∃ x1 x2 y1 y2,
      main db client proj a1 a2 = .ok { publishCalls := [x1, x2], errorLogged := false } ∧
      main db client proj b1 b2 = .ok { publishCalls := [y1, y2], errorLogged := false } ∧
      x1.metricValue = y1.metricValue ∧ x2.metricValue = y2.metricValue ∧
      pointEndTimes x1.request = [some (nowSeconds a1)] ∧
      pointEndTimes x2.request = [some (nowSeconds a2)] ∧
      pointEndTimes y1.request = [some (nowSeconds b1)] ∧
      pointEndTimes y2.request = [some (nowSeconds b2)] ∧
      nowSeconds a1 < nowSeconds b1 ∧ nowSeconds a2 < nowSeconds b2 := by
  refine ⟨_, _, _, _, main_eq_of_ok db client proj a1 a2 c h,
    main_eq_of_ok db client proj b1 b2 c h, rfl, rfl, rfl, rfl, rfl, rfl, ?_, ?_⟩
  · unfold nowSeconds
    have : (a1 : ℚ) < b1 := by exact_mod_cast h1
    exact div_lt_div_of_pos_right this (by norm_num)
  · unfold nowSeconds
    have : (a2 : ℚ) < b2 := by exact_mod_cast h2
    exact div_lt_div_of_pos_right this (by norm_num)

/-- Witness for C9 at a concrete database and two concrete cycle instants. -/
theorem C9_same_values_increasing_times_witness :
    ∃ x1 x2 y1 y2,
      main (fun _ => .ok { rows := [{ backlog_count := .str "2", processed_count := .str "1" }] })
          (fun _ => .ok ()) "demo-project" 1000 1001 =
        .ok { publishCalls := [x1, x2], errorLogged := false } ∧
      main (fun _ => .ok { rows := [{ backlog_count := .str "2", processed_count := .str "1" }] })
          (fun _ => .ok ()) "demo-project" 61000 61001 =
        .ok { publishCalls := [y1, y2], errorLogged := false } ∧
      x1.metricValue = y1.metricValue ∧ x2.metricValue = y2.metricValue ∧
      pointEndTimes x1.request = [some (nowSeconds 1000)] ∧
      pointEndTimes x2.request = [some (nowSeconds 1001)] ∧
      pointEndTimes y1.request = [some (nowSeconds 61000)] ∧
      pointEndTimes y2.request = [some (nowSeconds 61001)] ∧
      nowSeconds 1000 < nowSeconds 61000 ∧ nowSeconds 1001 < nowSeconds 61001 :=
  C9_same_values_increasing_times
    (fun _ => .ok { rows := [{ backlog_count := .str "2", processed_count := .str "1" }] })
    (fun _ => .ok ()) "demo-project" 1000 1001 61000 61001
    (by decide) (by decide) { backlogCount := 2, processedCount := 1 } rfl

end OrdersMonitor
